import Mathlib

/-!
Verification of the prodkit CLI installer (`src/prodkit/cli.py`).

We give a shallow embedding of the `init` command's decision logic, the
environment-detection helpers (`detect_os`, `detect_shell`, `detect_terminal`,
`check_claude_code`), the child-process environment construction, and the
frontmatter scanner of `list_commands`, and prove the specification's claims
about them.

Modelling conventions:
* Python strings are Lean `String`s; `x in s` (substring test), `str.strip()`,
  `str.startswith` and `str.split(sep, 1)[1]` are modelled character-wise.
* The ambient process state (cwd, `platform.system()`, environment variables,
  filesystem existence, the child process outcome) is a `World` record.
* Interactive prompts are oracles in an `Answers` record.  `rich.Prompt.ask`
  with a `choices` list re-prompts until the response is one of the keys, so
  the accepted response is always a member of the key list; we model the
  eventually-accepted response as the oracle answer when it is a valid key and
  as the default key otherwise.
* `sys.exit(n)` is modelled by the `exitCode` field of the result; a normal
  return from `init` is exit code 0 (typer exits 0 on normal return).
-/

namespace Prodkit

/-- Character-list version of `str.startswith`: `listStarts pat l` is true iff
`pat` is a leading segment of `l`. -/
def listStarts : List Char → List Char → Bool
  | [], _ => true
  | _ :: _, [] => false
  | a :: as, b :: bs => a == b && listStarts as bs

/-- Character-list version of Python's `needle in hay` substring test:
true iff `needle` occurs contiguously in `hay`. -/
def listHasSub : List Char → List Char → Bool
  | needle, [] => listStarts needle []
  | needle, a :: t => listStarts needle (a :: t) || listHasSub needle t

/-- Python `needle in hay` on strings. -/
def pyIn (needle hay : String) : Bool :=
  listHasSub needle.toList hay.toList

/-- Python `s.startswith(pre)`. -/
def pyStartsWith (pre s : String) : Bool :=
  listStarts pre.toList s.toList

/-- Python `s.strip()`: remove whitespace from both ends. -/
def pyStrip (s : String) : String :=
  String.mk (((s.toList.dropWhile Char.isWhitespace).reverse.dropWhile
    Char.isWhitespace).reverse)

/-- ASCII lower-casing of one character, as Python's `str.lower()` acts on
the ASCII range. -/
def charLower (c : Char) : Char :=
  if c.toNat ≥ 65 && c.toNat ≤ 90 then Char.ofNat (c.toNat + 32) else c

/-- Python `s.lower()` (the values fed to it here, from `platform.system()`,
are ASCII). -/
def pyLower (s : String) : String := String.mk (s.toList.map charLower)

/-- The character list after the first occurrence of `sep` in `l`
(empty when `sep` does not occur).  This models `l.split(sep, 1)[1]`, which in
the source is only evaluated on lines that start with `sep`, so the first
occurrence is the leading one. -/
def splitRemainder : List Char → List Char → List Char
  | _, [] => []
  | sep, a :: t =>
    if listStarts sep (a :: t) then (a :: t).drop sep.length
    else splitRemainder sep t

/-- `line.split("description:", 1)[1]` as used at cli.py:376. -/
def afterDescKey (l : String) : String :=
  String.mk (splitRemainder "description:".toList l.toList)

/-! ## Environment detection (cli.py lines 35-87) -/

/-- cli.py `detect_os`: lower-case `platform.system()`, map `darwin` to
`macos`, `windows` to `windows`, everything else to `linux`. -/
def detect_os (system : String) : String :=
  let s := pyLower system
  if s == "darwin" then "macos"
  else if s == "windows" then "windows"
  else "linux"

/-- cli.py `detect_shell`: substring tests on `os.environ.get("SHELL", "")`
in the order bash, zsh, fish; otherwise powershell when
`platform.system() == "Windows"`, else bash. -/
def detect_shell (system : String) (shellEnv : Option String) : String :=
  let shell := shellEnv.getD ""
  if pyIn "bash" shell then "bash"
  else if pyIn "zsh" shell then "zsh"
  else if pyIn "fish" shell then "fish"
  else if system == "Windows" then "powershell"
  else "bash"

/-- cli.py `detect_terminal`: powershell on windows; on macos zsh when the
detected shell is zsh else bash; on linux the detected shell itself. -/
def detect_terminal (system : String) (shellEnv : Option String) : String :=
  let os_type := detect_os system
  let shell := detect_shell system shellEnv
  if os_type == "windows" then "powershell"
  else if os_type == "macos" then
    if shell == "zsh" then "zsh" else "bash"
  else shell

/-- cli.py `check_claude_code`: true iff `os.environ.get("CLAUDE_CODE")` is
truthy (present and non-empty) or `shutil.which("claude")` finds an
executable. -/
def check_claude_code (claudeCodeEnv : Option String) (whichClaude : Bool) :
    Bool :=
  (match claudeCodeEnv with
   | some s => !(s == "")
   | none => false) || whichClaude

/-! ## Environment maps (Python `dict` of strings, lookup view) -/

/-- Lookup in an association-list environment (first matching key). -/
def lookupEnv (env : List (String × String)) (k : String) : Option String :=
  match env.find? (fun p => p.1 == k) with
  | some p => some p.2
  | none => none

/-- Python `env[k] = v` on a dict: replace the value of an existing key in
place, otherwise append the new binding at the end. -/
def setEnv (env : List (String × String)) (k v : String) :
    List (String × String) :=
  if env.any (fun p => p.1 == k) then
    env.map (fun p => if p.1 == k then (k, v) else p)
  else env ++ [(k, v)]

/-! ## The `init` command (cli.py lines 123-324) -/

/-- Command-line arguments of `init`. -/
structure InitArgs where
  project_name : Option String
  here : Bool
  ai : Option String
  terminal : Option String
  force : Bool
deriving DecidableEq

/-- Ambient process state consulted by `init`. -/
structure World where
  /-- `Path.cwd()` as a string. -/
  cwd : String
  /-- `Path.cwd().name`, the base name of the current directory. -/
  cwdName : String
  /-- raw `platform.system()` value. -/
  system : String
  /-- `os.environ.get("SHELL")`. -/
  shellEnv : Option String
  /-- `os.environ.get("CLAUDE_CODE")`. -/
  claudeCodeEnv : Option String
  /-- whether `shutil.which("claude")` finds an executable. -/
  whichClaude : Bool
  /-- the full parent environment `os.environ`. -/
  environ : List (String × String)
  /-- directory existence, `Path(p).exists()`. -/
  dirExists : String → Bool
  /-- whether the packaged `install.sh` exists. -/
  installScriptExists : Bool
  /-- outcome of `subprocess.run`: `Except.error ()` when spawning or running
  raises an exception, `Except.ok rc` for a completed child with return
  code `rc`. -/
  runInstall : Except Unit Nat

/-- Oracle answers for the interactive prompts of `init`. -/
structure Answers where
  /-- free-text answer to the project-name prompt ("" means the user accepted
  the default). -/
  projectNameAns : String
  /-- key selected at the AI-platform menu. -/
  aiChoiceAns : String
  /-- key selected at the terminal menu. -/
  terminalChoiceAns : String
  /-- answer to "Continue anyway?" when Claude Code is not detected. -/
  claudeContinue : Bool
  /-- answer to "Initialize ProdKit in existing directory?". -/
  existingDirConfirm : Bool
deriving DecidableEq

/-- `rich.Prompt.ask` with a `choices` list: the accepted response is always a
member of `keys`; the oracle answer is taken when valid, the default key
otherwise (the real prompt re-asks until a valid key is typed). -/
def promptChoice (keys : List String) (deflt : String) (ans : String) :
    String :=
  if keys.contains ans then ans else deflt

/-- Python `/`-join of a directory and a child name, `Path.cwd() / name`. -/
def pathJoin (a b : String) : String := a ++ "/" ++ b

/-- cli.py lines 149-168: resolve `(target_dir, project_name, prompted?)`.
`if here or project_name == "."` uses the cwd and its base name; otherwise a
non-empty positional argument names a subdirectory of the cwd; otherwise the
name is prompted for (defaulting to the cwd base name) and a typed `"."` again
selects the cwd.  Note Python's `elif project_name:` treats an empty string as
absent. -/
def resolveTarget (args : InitArgs) (w : World) (ans : Answers) :
    String × String × Bool :=
  if args.here || args.project_name == some "." then
    (w.cwd, w.cwdName, false)
  else if !(args.project_name.getD "" == "") then
    (pathJoin w.cwd (args.project_name.getD ""), args.project_name.getD "",
     false)
  else
    let pn := if ans.projectNameAns == "" then w.cwdName
              else ans.projectNameAns
    if pn == "." then (w.cwd, w.cwdName, true)
    else (pathJoin w.cwd pn, pn, true)

/-- The resolved target directory of `init`. -/
def targetDirOf (args : InitArgs) (w : World) (ans : Answers) : String :=
  (resolveTarget args w ans).1

/-- The resolved project name of `init` (after the reassignments at
cli.py:152 and cli.py:166). -/
def projectNameOf (args : InitArgs) (w : World) (ans : Answers) : String :=
  (resolveTarget args w ans).2.1

/-- cli.py lines 173-194: resolve `(ai, prompted?)`.  `if not ai:` shows the
menu (whose selected key is only echoed back, never used for resolution:
line 191 assigns the constant `"claude"`); a truthy pre-supplied flag value
is used verbatim. -/
def resolveAi (args : InitArgs) (_ans : Answers) : String × Bool :=
  if args.ai.getD "" == "" then
    -- the menu choice `promptChoice ["1"] "1" ans.aiChoiceAns` is used only
    -- for the confirmation message; the resolved value is the constant
    ("claude", true)
  else (args.ai.getD "", false)

/-- cli.py lines 199-237: resolve `(terminal, prompted?)`.  On windows the
menu maps key 1 to powershell and any other key to bash; elsewhere keys
1, 2, 3 map to bash, zsh, fish.  A truthy pre-supplied flag value is used
verbatim. -/
def resolveTerminal (args : InitArgs) (w : World) (ans : Answers) :
    String × Bool :=
  if args.terminal.getD "" == "" then
    let detected_os := detect_os w.system
    let detected_terminal := detect_terminal w.system w.shellEnv
    let deflt :=
      if detected_os == "windows" || detected_terminal == "bash" then "1"
      else "2"
    if detected_os == "windows" then
      let c := promptChoice ["1", "2"] deflt ans.terminalChoiceAns
      ((if c == "1" then "powershell" else "bash"), true)
    else
      let c := promptChoice ["1", "2", "3"] deflt ans.terminalChoiceAns
      ((if c == "1" then "bash" else if c == "2" then "zsh" else "fish"),
       true)
  else (args.terminal.getD "", false)

/-- cli.py lines 242-248: the Claude-absence confirmation is shown iff the
resolved platform is `"claude"` and `check_claude_code()` is false. -/
def claudeConfirmAskedOf (args : InitArgs) (w : World) (ans : Answers) :
    Bool :=
  (resolveAi args ans).1 == "claude" &&
    !check_claude_code w.claudeCodeEnv w.whichClaude

/-- cli.py lines 248-250: `init` aborts (exit 0) when the Claude-absence
confirmation is declined. -/
def claudeAbortedOf (args : InitArgs) (w : World) (ans : Answers) : Bool :=
  claudeConfirmAskedOf args w ans && !ans.claudeContinue

/-- cli.py line 257: the existing-directory warning condition
`target_dir.exists() and not here and project_name != "."`, where
`project_name` is the already-reassigned name. -/
def dirWarnOf (args : InitArgs) (w : World) (ans : Answers) : Bool :=
  w.dirExists (targetDirOf args w ans) && !args.here &&
    !(projectNameOf args w ans == ".")

/-- cli.py lines 257-260: the existing-directory confirmation is reached iff
the run was not already aborted at the Claude gate, the warning condition
holds and `force` is false. -/
def dirConfirmAskedOf (args : InitArgs) (w : World) (ans : Answers) : Bool :=
  !claudeAbortedOf args w ans && (dirWarnOf args w ans && !args.force)

/-- cli.py lines 260-262: `init` aborts (exit 0) when the existing-directory
confirmation is declined. -/
def dirAbortedOf (args : InitArgs) (w : World) (ans : Answers) : Bool :=
  dirConfirmAskedOf args w ans && !ans.existingDirConfirm

/-- cli.py lines 282-288: copy `os.environ` and overlay `TARGET_DIR`,
`PROJECT_NAME`, `AI_PLATFORM`, `TERMINAL_TYPE`, and `FORCE_INSTALL="1"` only
when `force`. -/
def buildChildEnv (environ : List (String × String))
    (td pn ai term : String) (force : Bool) : List (String × String) :=
  let e := setEnv (setEnv (setEnv (setEnv environ "TARGET_DIR" td)
    "PROJECT_NAME" pn) "AI_PLATFORM" ai) "TERMINAL_TYPE" term
  if force then setEnv e "FORCE_INSTALL" "1" else e

/-- The environment map passed to the child provisioning process, or `none`
when the run aborts (at either confirmation gate or because `install.sh` is
missing) before the child is spawned. -/
def childEnvOf (args : InitArgs) (w : World) (ans : Answers) :
    Option (List (String × String)) :=
  if claudeAbortedOf args w ans || dirAbortedOf args w ans ||
      !w.installScriptExists then none
  else some (buildChildEnv w.environ (targetDirOf args w ans)
    (projectNameOf args w ans) (resolveAi args ans).1
    (resolveTerminal args w ans).1 args.force)

/-- cli.py lines 291-293: `bash` unless the detected OS is windows and the
resolved terminal is powershell. -/
def shellCmdOf (args : InitArgs) (w : World) (ans : Answers) : String :=
  if detect_os w.system == "windows" &&
      (resolveTerminal args w ans).1 == "powershell" then "powershell"
  else "bash"

/-- The process exit code of `init`: 0 on a declined confirmation (clean
abort, cli.py:250 and cli.py:262); 1 when `install.sh` is missing
(cli.py:279); 1 when running the child raises an exception (cli.py:324);
otherwise the child's own return code (0 on success, `sys.exit(rc)` at
cli.py:320 for nonzero `rc`). -/
def exitCodeOf (args : InitArgs) (w : World) (ans : Answers) : Nat :=
  if claudeAbortedOf args w ans then 0
  else if dirAbortedOf args w ans then 0
  else if !w.installScriptExists then 1
  else
    match w.runInstall with
    | Except.error _ => 1
    | Except.ok rc => rc

/-- Observable outcome of one `init` invocation. -/
structure InitResult where
  exitCode : Nat
  target_dir : String
  project_name : String
  ai : String
  terminal : String
  promptedName : Bool
  promptedAi : Bool
  promptedTerminal : Bool
  askedClaudeConfirm : Bool
  askedDirConfirm : Bool
  createdDir : Bool
  childEnv : Option (List (String × String))
deriving DecidableEq

/-- The `init` command (cli.py lines 123-324) as a function of its arguments,
the ambient world, and the prompt oracles. -/
def init (args : InitArgs) (w : World) (ans : Answers) : InitResult :=
  { exitCode := exitCodeOf args w ans
    target_dir := targetDirOf args w ans
    project_name := projectNameOf args w ans
    ai := (resolveAi args ans).1
    terminal := (resolveTerminal args w ans).1
    promptedName := (resolveTarget args w ans).2.2
    promptedAi := (resolveAi args ans).2
    promptedTerminal := (resolveTerminal args w ans).2
    askedClaudeConfirm := claudeConfirmAskedOf args w ans
    askedDirConfirm := dirConfirmAskedOf args w ans
    createdDir := (!claudeAbortedOf args w ans && !dirAbortedOf args w ans)
      && !w.dirExists (targetDirOf args w ans)
    childEnv := childEnvOf args w ans }

/-! ## Frontmatter scanning of `list_commands` (cli.py lines 361-381) -/

/-- The scanning loop of cli.py lines 368-377, with the `in_frontmatter`
state explicit: a stripped `---` line toggles into the block or, when already
inside, breaks with the description still empty; inside the block a line
starting with `description:` yields its stripped remainder and breaks. -/
def extractDescGo : Bool → List String → String
  | _, [] => ""
  | inFm, l :: ls =>
    if pyStrip l == "---" then
      if inFm then "" else extractDescGo true ls
    else if inFm && pyStartsWith "description:" l then
      pyStrip (afterDescKey l)
    else extractDescGo inFm ls

/-- Description extraction from one template file's lines (cli.py 365-377),
starting outside the frontmatter block. -/
def extractDescription (lines : List String) : String :=
  extractDescGo false lines

/-- cli.py lines 366-379: a per-file read error is caught and replaced by the
placeholder description. -/
def describeFile (content : Except Unit (List String)) : String :=
  match content with
  | Except.error _ => "No description available"
  | Except.ok lines => extractDescription lines

/-- Spec-side characterisation (§4.6): the description of a metadata block is
the stripped remainder of the first line in the block that begins with the
`description:` key, or empty when no such line exists. -/
def specDescription (block : List String) : String :=
  match block.find? (fun l => pyStartsWith "description:" l) with
  | some l => pyStrip (afterDescKey l)
  | none => ""

/-! ## Concrete fixtures for witnesses and counterexamples -/

/-- A Linux host with Claude installed, used as the ambient world of the
witnesses. -/
def demoWorld : World :=
  { cwd := "/home/user/proj"
    cwdName := "proj"
    system := "Linux"
    shellEnv := some "/bin/bash"
    claudeCodeEnv := none
    whichClaude := true
    environ := [("PATH", "/usr/bin")]
    dirExists := fun _ => false
    installScriptExists := true
    runInstall := Except.ok 0 }

/-- Prompt oracles that accept every confirmation. -/
def demoAns : Answers :=
  { projectNameAns := ""
    aiChoiceAns := "1"
    terminalChoiceAns := "1"
    claudeContinue := true
    existingDirConfirm := true }

/-- `prodkit init demo --ai claude --terminal bash`. -/
def demoArgs : InitArgs :=
  { project_name := some "demo"
    here := false
    ai := some "claude"
    terminal := some "bash"
    force := false }

/-- `prodkit init --here --ai claude --terminal bash`. -/
def hereArgs : InitArgs :=
  { project_name := none
    here := true
    ai := some "claude"
    terminal := some "bash"
    force := false }

/-- `prodkit init demo` with both `--ai` and `--terminal` left to the menus. -/
def menuArgs : InitArgs :=
  { project_name := some "demo"
    here := false
    ai := none
    terminal := none
    force := false }

/-! ## Helper lemmas -/

/-- `detect_shell` only ever produces one of the four shell labels. -/
theorem detect_shell_mem (system : String) (shellEnv : Option String) :
    detect_shell system shellEnv ∈ ["bash", "zsh", "fish", "powershell"] := by
  simp only [detect_shell]
  split_ifs <;> simp

/-! ## Claim C5 -/

/-- C5: with the `--here` flag or a positional project argument equal to the
literal `.`, the resolved target directory is the current working directory
and the resolved project name is its base name, in every starting working
directory. -/
theorem C5_here_or_dot_uses_cwd (args : InitArgs) (w : World) (ans : Answers)
    (h : args.here = true ∨ args.project_name = some ".") :
    (init args w ans).target_dir = w.cwd ∧
    (init args w ans).project_name = w.cwdName := by
  have hc : (args.here || args.project_name == some ".") = true := by
    rcases h with h | h <;> simp [h]
  constructor <;>
    simp [init, targetDirOf, projectNameOf, resolveTarget, hc]

/-- Witness for C5 at `prodkit init --here` from `/home/user/proj`. -/
theorem C5_witness :
    (init hereArgs demoWorld demoAns).target_dir = "/home/user/proj" ∧
    (init hereArgs demoWorld demoAns).project_name = "proj" := by
  have h := C5_here_or_dot_uses_cwd hereArgs demoWorld demoAns (Or.inl rfl)
  simpa [demoWorld] using h

/-! ## Claim C6 -/

/-- C6: the terminal profile is powershell on windows, zsh-or-bash on macos
(zsh exactly when the detected shell is zsh), and the detected shell itself on
linux; it is always one of the four defined terminal labels.  It is a pure
function of the OS identifier and the `SHELL` value by construction. -/
theorem C6_terminal_profile (system : String) (shellEnv : Option String) :
    (detect_os system = "windows" →
      detect_terminal system shellEnv = "powershell") ∧
    (detect_os system = "macos" →
      detect_terminal system shellEnv =
        (if detect_shell system shellEnv = "zsh" then "zsh" else "bash")) ∧
    (detect_os system = "linux" →
      detect_terminal system shellEnv = detect_shell system shellEnv) ∧
    detect_terminal system shellEnv ∈ ["bash", "zsh", "fish", "powershell"]
    := by
  have hmem := detect_shell_mem system shellEnv
  refine ⟨?_, ?_, ?_, ?_⟩
  · intro h
    simp [detect_terminal, h]
  · intro h
    by_cases hz : detect_shell system shellEnv = "zsh" <;>
      simp [detect_terminal, h, hz]
  · intro h
    simp [detect_terminal, h]
  · simp only [detect_terminal]
    split_ifs <;> simp_all

/-- Witness for C6 on a windows host. -/
theorem C6_witness :
    detect_terminal "Windows" (some "/bin/bash") = "powershell" :=
  (C6_terminal_profile "Windows" (some "/bin/bash")).1 (by decide)

/-! ## Claim C7 -/

/-- C7: shell classification checks the `SHELL` value for the substrings
`bash`, `zsh`, `fish` in that priority order; when `SHELL` is absent or
matches none of them the result is powershell exactly when the platform
identifier is `Windows`, and bash otherwise. -/
theorem C7_shell_substring_priority (system sh : String) :
    (pyIn "bash" sh = true → detect_shell system (some sh) = "bash") ∧
    (pyIn "bash" sh = false → pyIn "zsh" sh = true →
      detect_shell system (some sh) = "zsh") ∧
    (pyIn "bash" sh = false → pyIn "zsh" sh = false →
      pyIn "fish" sh = true → detect_shell system (some sh) = "fish") ∧
    (pyIn "bash" sh = false → pyIn "zsh" sh = false →
      pyIn "fish" sh = false →
      detect_shell system (some sh) =
        (if system = "Windows" then "powershell" else "bash")) ∧
    detect_shell system none =
      (if system = "Windows" then "powershell" else "bash") := by
  have e1 : pyIn "bash" "" = false := by decide
  have e2 : pyIn "zsh" "" = false := by decide
  have e3 : pyIn "fish" "" = false := by decide
  refine ⟨?_, ?_, ?_, ?_, ?_⟩
  · intro h
    simp [detect_shell, h]
  · intro h1 h2
    simp [detect_shell, h1, h2]
  · intro h1 h2 h3
    simp [detect_shell, h1, h2, h3]
  · intro h1 h2 h3
    by_cases hw : system = "Windows" <;>
      simp [detect_shell, h1, h2, h3, hw]
  · by_cases hw : system = "Windows" <;>
      simp [detect_shell, e1, e2, e3, hw]

/-- Witness for C7: `SHELL=/usr/bin/zsh` on Linux classifies as zsh. -/
theorem C7_witness :
    detect_shell "Linux" (some "/usr/bin/zsh") = "zsh" :=
  (C7_shell_substring_priority "Linux" "/usr/bin/zsh").2.1
    (by decide) (by decide)

/-! ## Claim C10 -/

/-- C10: when `--ai` is absent the AI-platform menu is shown, and the resolved
platform is the constant `"claude"` no matter which key the user selects (the
result is independent of the whole answer oracle); a truthy pre-supplied
`--ai` value skips the prompt. -/
theorem C10_menu_choice_never_influences_ai (args : InitArgs) (w : World)
    (ans ansOther : Answers) :
    (args.ai = none →
      (init args w ans).ai = "claude" ∧
      (init args w ansOther).ai = "claude" ∧
      (init args w ans).promptedAi = true) ∧
    (∀ a : String, args.ai = some a → ¬ a = "" →
      (init args w ans).promptedAi = false) := by
  constructor
  · intro h
    refine ⟨?_, ?_, ?_⟩ <;> simp [init, resolveAi, h]
  · intro a ha hne
    simp [init, resolveAi, ha, hne]

/-- Witness for C10 with both menus active. -/
theorem C10_witness :
    (init menuArgs demoWorld demoAns).ai = "claude" ∧
    (init menuArgs demoWorld demoAns).promptedAi = true := by
  have h :=
    C10_menu_choice_never_influences_ai menuArgs demoWorld demoAns demoAns
  exact ⟨(h.1 rfl).1, (h.1 rfl).2.2⟩

/-! ## Claim C1 -/

/-- `prodkit init .` (positional argument the literal dot). -/
def dotArgs : InitArgs :=
  { project_name := some "."
    here := false
    ai := some "claude"
    terminal := some "bash"
    force := false }

/-- A world in which every directory (in particular the cwd) exists. -/
def dotWorld : World := { demoWorld with dirExists := fun _ => true }

/-- Oracles that decline the existing-directory confirmation. -/
def ansDeclineDir : Answers := { demoAns with existingDirConfirm := false }

/-- C1, evaluation at the failing input: for `prodkit init .` with `force`
false, an explicit use-current-directory invocation, the interactive
existing-directory confirmation IS requested — contradicting the claim's
"if and only if" — because by cli.py:257 the variable `project_name` has
already been reassigned to the cwd's base name (cli.py:152), so the guard
`project_name != "."` can never recognise the dot invocation.  Declining
still exits cleanly with code 0, as the claim states. -/
theorem C1_dot_invocation_still_asks_confirmation :
    dotArgs.project_name = some "." ∧ dotArgs.here = false ∧
    dotArgs.force = false ∧
    (init dotArgs dotWorld ansDeclineDir).target_dir = dotWorld.cwd ∧
    (init dotArgs dotWorld ansDeclineDir).askedDirConfirm = true ∧
    (init dotArgs dotWorld ansDeclineDir).exitCode = 0 ∧
    (init dotArgs dotWorld ansDeclineDir).childEnv = none := by
  decide

/-! ## Claim C2 -/

/-- C2: once `init` reaches the provisioning step (neither confirmation gate
aborted the run), a child exit code `n` with 1 ≤ n ≤ 255 becomes the whole
command's exit code; an exception while spawning or running the child, and
likewise a missing `install.sh`, exit with code 1. -/
theorem C2_exit_code_propagation (args : InitArgs) (w : World)
    (ans : Answers) (n : Nat)
    (hc : claudeAbortedOf args w ans = false)
    (hd : dirAbortedOf args w ans = false) :
    (w.installScriptExists = true → w.runInstall = Except.ok n → 1 ≤ n →
      n ≤ 255 → (init args w ans).exitCode = n) ∧
    (w.installScriptExists = true → w.runInstall = Except.error () →
      (init args w ans).exitCode = 1) ∧
    (w.installScriptExists = false → (init args w ans).exitCode = 1) := by
  refine ⟨?_, ?_, ?_⟩
  · intro hs hr _ _
    simp [init, exitCodeOf, hc, hd, hs, hr]
  · intro hs hr
    simp [init, exitCodeOf, hc, hd, hs, hr]
  · intro hs
    simp [init, exitCodeOf, hc, hd, hs]

/-- A world whose provisioning script fails with exit code 7. -/
def failWorld : World := { demoWorld with runInstall := Except.ok 7 }

/-- A world whose provisioning script is missing. -/
def noScriptWorld : World := { demoWorld with installScriptExists := false }

/-- Witness for C2: a child exit code of 7 becomes the command's exit code,
and a missing script exits with 1. -/
theorem C2_witness :
    (init demoArgs failWorld demoAns).exitCode = 7 ∧
    (init demoArgs noScriptWorld demoAns).exitCode = 1 := by
  constructor
  · exact (C2_exit_code_propagation demoArgs failWorld demoAns 7
      (by decide) (by decide)).1 (by decide) rfl (by decide)
      (by decide)
  · exact (C2_exit_code_propagation demoArgs noScriptWorld demoAns 7
      (by decide) (by decide)).2.2 (by decide)

/-! ## Claim C4 -/

/-- `prodkit init demo --ai copilot --terminal tcsh`. -/
def badFlagArgs : InitArgs :=
  { project_name := some "demo"
    here := false
    ai := some "copilot"
    terminal := some "tcsh"
    force := false }

/-- C4, counterexample: pre-supplied `--ai copilot --terminal tcsh` are
accepted verbatim (cli.py:193-194 and 236-237 only echo them), so the
collector proceeds to the Installer Invoker with values outside both
enumerated sets — the child process is even spawned with them. -/
theorem C4_counterexample_flags_unvalidated :
    (init badFlagArgs demoWorld demoAns).ai = "copilot" ∧
    (init badFlagArgs demoWorld demoAns).ai ∉ ["claude"] ∧
    (init badFlagArgs demoWorld demoAns).terminal = "tcsh" ∧
    (init badFlagArgs demoWorld demoAns).terminal ∉
      ["bash", "zsh", "fish", "powershell"] ∧
    (init badFlagArgs demoWorld demoAns).childEnv ≠ none := by
  decide

/-- C4 as amended: when `--ai` and `--terminal` are both left unset, the
menu-resolved AI platform is the constant `"claude"` and the menu-resolved
terminal is one of bash, zsh, fish, powershell, for every world and every
oracle; values pre-supplied by flag are passed through without domain
validation. -/
theorem C4_amended_menu_values_in_domain (args : InitArgs) (w : World)
    (ans : Answers) (hai : args.ai = none) (hterm : args.terminal = none) :
    (init args w ans).ai = "claude" ∧
    (init args w ans).terminal ∈ ["bash", "zsh", "fish", "powershell"] := by
  constructor
  · simp [init, resolveAi, hai]
  · simp only [init]
    simp only [resolveTerminal, hterm, Option.getD_none]
    split_ifs <;> simp_all

/-- Witness for C4's amended statement with both menus active. -/
theorem C4_witness :
    (init menuArgs demoWorld demoAns).ai = "claude" ∧
    (init menuArgs demoWorld demoAns).terminal ∈
      ["bash", "zsh", "fish", "powershell"] :=
  C4_amended_menu_values_in_domain menuArgs demoWorld demoAns rfl rfl

/-! ## Claim C8 -/

/-- C8: when the resolved platform is Claude and the probe reports the Claude
CLI absent (no `CLAUDE_CODE` variable, no `claude` executable), the
continue/abort confirmation is shown, and declining it terminates `init`
cleanly with exit code 0 before any provisioning. -/
theorem C8_claude_gate (args : InitArgs) (w : World) (ans : Answers)
    (hai : (init args w ans).ai = "claude") (henv : w.claudeCodeEnv = none)
    (hwhich : w.whichClaude = false) :
    check_claude_code w.claudeCodeEnv w.whichClaude = false ∧
    (init args w ans).askedClaudeConfirm = true ∧
    (ans.claudeContinue = false →
      (init args w ans).exitCode = 0 ∧
      (init args w ans).childEnv = none) := by
  have hprobe : check_claude_code w.claudeCodeEnv w.whichClaude = false := by
    simp [check_claude_code, henv, hwhich]
  have hres : (resolveAi args ans).1 = "claude" := hai
  have hask : claudeConfirmAskedOf args w ans = true := by
    simp [claudeConfirmAskedOf, hres, hprobe]
  refine ⟨hprobe, hask, ?_⟩
  intro hdec
  have habort : claudeAbortedOf args w ans = true := by
    simp [claudeAbortedOf, hask, hdec]
  constructor
  · simp [init, exitCodeOf, habort]
  · simp [init, childEnvOf, habort]

/-- A world without Claude Code (no marker variable, no executable). -/
def noClaudeWorld : World := { demoWorld with whichClaude := false }

/-- Oracles that decline the Claude-absence confirmation. -/
def ansDeclineClaude : Answers := { demoAns with claudeContinue := false }

/-- Witness for C8: declining the Claude-absence confirmation exits 0
without spawning the child. -/
theorem C8_witness :
    (init demoArgs noClaudeWorld ansDeclineClaude).exitCode = 0 ∧
    (init demoArgs noClaudeWorld ansDeclineClaude).childEnv = none := by
  exact (C8_claude_gate demoArgs noClaudeWorld ansDeclineClaude
    (by decide) (by decide) (by decide)).2.2 (by decide)

/-! ## Lookup lemmas for the environment map -/

/-- Lookup in the empty environment. -/
theorem lookupEnv_nil (k : String) : lookupEnv [] k = none := rfl

/-- Lookup steps over one binding. -/
theorem lookupEnv_cons (x y : String) (t : List (String × String))
    (k : String) :
    lookupEnv ((x, y) :: t) k =
      if x == k then some y else lookupEnv t k := by
  by_cases h : (x == k) = true <;> simp [lookupEnv, List.find?, h]

/-- Lookup distributes over append, preferring the left part. -/
theorem lookupEnv_append (a b : List (String × String)) (k : String) :
    lookupEnv (a ++ b) k =
      if (lookupEnv a k).isSome then lookupEnv a k else lookupEnv b k := by
  induction a with
  | nil => simp [lookupEnv_nil]
  | cons x t ih =>
    obtain ⟨x1, x2⟩ := x
    rw [List.cons_append, lookupEnv_cons, lookupEnv_cons]
    by_cases h : (x1 == k) = true <;> simp [h, ih]

/-- Lookup after the in-place-replacement half of `setEnv`. -/
theorem lookupEnv_map_set (env : List (String × String)) (k v k' : String) :
    lookupEnv (env.map (fun p => if p.1 == k then (k, v) else p)) k' =
      if k' = k then
        (if env.any (fun p => p.1 == k) then some v else none)
      else lookupEnv env k' := by
  induction env with
  | nil => by_cases h : k' = k <;> simp [lookupEnv_nil, h]
  | cons a t ih =>
    obtain ⟨a1, a2⟩ := a
    simp only [List.map_cons, List.any_cons]
    by_cases h1 : (a1 == k) = true
    · have ha1 : a1 = k := by simpa using h1
      subst ha1
      rw [if_pos h1, lookupEnv_cons, lookupEnv_cons, ih]
      by_cases h2 : k' = a1
      · simp [h2]
      · have h2' : ¬ a1 = k' := fun hh => h2 hh.symm
        simp [h2, h2']
    · have h1' : ¬ a1 = k := by simpa using h1
      rw [if_neg h1, lookupEnv_cons, lookupEnv_cons, ih]
      by_cases h2 : k' = k
      · subst h2
        have h1b : (a1 == k') = false := by simpa using h1
        simp only [h1b, Bool.false_or]
        simp
      · by_cases h3 : a1 = k'
        · simp [h2, h3]
        · simp [h2, h3]

/-- The dict-assignment `setEnv` binds `k` to `v` and leaves every other key
unchanged. -/
theorem lookupEnv_setEnv (env : List (String × String)) (k v k' : String) :
    lookupEnv (setEnv env k v) k' =
      if k' = k then some v else lookupEnv env k' := by
  by_cases hany : (env.any (fun p => p.1 == k)) = true
  · simp only [setEnv, hany, if_true]
    rw [lookupEnv_map_set]
    by_cases h : k' = k <;> simp [h, hany]
  · have hfind : env.find? (fun p => p.1 == k) = none := by
      rw [List.find?_eq_none]
      intro p hp hpk
      exact hany (List.any_eq_true.mpr ⟨p, hp, hpk⟩)
    have hnone : lookupEnv env k = none := by simp [lookupEnv, hfind]
    simp only [setEnv]
    rw [if_neg hany, lookupEnv_append]
    by_cases h : k' = k
    · subst h
      simp [hnone, lookupEnv_cons]
    · have h' : ¬ k = k' := fun hh => h hh.symm
      cases hcase : lookupEnv env k' <;>
        simp [hcase, lookupEnv_cons, h, h', lookupEnv_nil]

/-! ## Claim C3 -/

/-- C3: whenever the child provisioning process is spawned, its environment
map is the parent environment overlaid with exactly `TARGET_DIR`,
`PROJECT_NAME`, `AI_PLATFORM`, `TERMINAL_TYPE`, plus `FORCE_INSTALL="1"`
exactly when `force` is set: every other key reads through to the parent
environment unchanged, and nothing is removed. -/
theorem C3_child_env_overlay (args : InitArgs) (w : World) (ans : Answers)
    (e : List (String × String)) (k : String)
    (he : (init args w ans).childEnv = some e) :
    lookupEnv e k =
      if k = "FORCE_INSTALL" ∧ args.force = true then some "1"
      else if k = "TARGET_DIR" then some ((init args w ans).target_dir)
      else if k = "PROJECT_NAME" then some ((init args w ans).project_name)
      else if k = "AI_PLATFORM" then some ((init args w ans).ai)
      else if k = "TERMINAL_TYPE" then some ((init args w ans).terminal)
      else lookupEnv w.environ k := by
  have he' : childEnvOf args w ans = some e := he
  simp only [childEnvOf] at he'
  by_cases hcond : (claudeAbortedOf args w ans || dirAbortedOf args w ans ||
      !w.installScriptExists) = true
  · rw [if_pos hcond] at he'
    cases he'
  · rw [if_neg hcond] at he'
    injection he' with he2
    subst he2
    simp only [init, buildChildEnv]
    by_cases hf : args.force = true
    · rw [if_pos hf, lookupEnv_setEnv, lookupEnv_setEnv, lookupEnv_setEnv,
        lookupEnv_setEnv, lookupEnv_setEnv]
      by_cases h1 : k = "FORCE_INSTALL" <;>
        by_cases h2 : k = "TARGET_DIR" <;>
          by_cases h3 : k = "PROJECT_NAME" <;>
            by_cases h4 : k = "AI_PLATFORM" <;>
              by_cases h5 : k = "TERMINAL_TYPE" <;>
                simp_all
    · rw [if_neg hf, lookupEnv_setEnv, lookupEnv_setEnv, lookupEnv_setEnv,
        lookupEnv_setEnv]
      by_cases h1 : k = "FORCE_INSTALL" <;>
        by_cases h2 : k = "TARGET_DIR" <;>
          by_cases h3 : k = "PROJECT_NAME" <;>
            by_cases h4 : k = "AI_PLATFORM" <;>
              by_cases h5 : k = "TERMINAL_TYPE" <;>
                simp_all

/-- The concrete environment map produced for `demoArgs` in `demoWorld`. -/
def demoChildEnv : List (String × String) :=
  [("PATH", "/usr/bin"), ("TARGET_DIR", "/home/user/proj/demo"),
   ("PROJECT_NAME", "demo"), ("AI_PLATFORM", "claude"),
   ("TERMINAL_TYPE", "bash")]

/-- Witness for C3 on the overlaid key `TARGET_DIR`. -/
theorem C3_witness :
    lookupEnv demoChildEnv "TARGET_DIR" = some "/home/user/proj/demo" := by
  have h := C3_child_env_overlay demoArgs demoWorld demoAns demoChildEnv
    "TARGET_DIR" (by decide)
  rw [h]
  decide

/-! ## Claim C9 -/

/-- Outside the metadata block the scanner ignores every non-delimiter line;
with no delimiter at all the description stays empty. -/
theorem extractDescGo_false_of_noDelim (ls : List String)
    (h : ∀ l ∈ ls, ¬ pyStrip l = "---") :
    extractDescGo false ls = "" := by
  induction ls with
  | nil => rfl
  | cons a t ih =>
    have ha : ¬ pyStrip a = "---" := h a (by simp)
    have ht := ih (fun l hl => h l (by simp [hl]))
    simp [extractDescGo, ha, ht]

/-- Non-delimiter lines before the opening delimiter are skipped. -/
theorem extractDescGo_false_append (pre ls : List String)
    (h : ∀ l ∈ pre, ¬ pyStrip l = "---") :
    extractDescGo false (pre ++ ls) = extractDescGo false ls := by
  induction pre with
  | nil => rfl
  | cons a t ih =>
    have ha : ¬ pyStrip a = "---" := h a (by simp)
    have ht := ih (fun l hl => h l (by simp [hl]))
    simp [extractDescGo, ha, ht]

/-- Inside the metadata block, the scanner produces exactly the spec-side
description of the block: the stripped remainder of the first
`description:`-line, or empty when the closing delimiter comes first. -/
theorem extractDescGo_true_block (mid rest : List String) (d2 : String)
    (hd2 : pyStrip d2 = "---")
    (h : ∀ l ∈ mid, ¬ pyStrip l = "---") :
    extractDescGo true (mid ++ d2 :: rest) = specDescription mid := by
  induction mid with
  | nil => simp [extractDescGo, specDescription, hd2]
  | cons a t ih =>
    have ha : ¬ pyStrip a = "---" := h a (by simp)
    have ht := ih (fun l hl => h l (by simp [hl]))
    by_cases hdesc : pyStartsWith "description:" a = true
    · simp [extractDescGo, specDescription, List.find?, ha, hdesc]
    · have hdesc' : pyStartsWith "description:" a = false := by
        simpa using hdesc
      simp [extractDescGo, specDescription, List.find?, ha, hdesc', ht]

/-- C9: the description extractor is a two-state scanner.  For a file whose
lines decompose as `pre ++ d1 :: mid ++ d2 :: rest` with `d1`, `d2` the only
lines that strip to the delimiter `---`, the extracted description is the
spec-side description of the block `mid` (the stripped text after the
`description:` key on the first such line, empty when the block has none);
with no delimiter line at all the description is empty; and a per-file read
error yields the placeholder description instead of aborting. -/
theorem C9_frontmatter_scanner (pre mid rest : List String) (d1 d2 : String)
    (hpre : ∀ l ∈ pre, ¬ pyStrip l = "---")
    (hd1 : pyStrip d1 = "---") (hd2 : pyStrip d2 = "---")
    (hmid : ∀ l ∈ mid, ¬ pyStrip l = "---") :
    extractDescription (pre ++ d1 :: (mid ++ d2 :: rest)) =
      specDescription mid ∧
    extractDescription (pre ++ mid) = "" ∧
    describeFile (Except.error ()) = "No description available" := by
  refine ⟨?_, ?_, rfl⟩
  · show extractDescGo false (pre ++ d1 :: (mid ++ d2 :: rest)) =
      specDescription mid
    rw [extractDescGo_false_append pre _ hpre]
    have hstep : extractDescGo false (d1 :: (mid ++ d2 :: rest)) =
        extractDescGo true (mid ++ d2 :: rest) := by
      simp [extractDescGo, hd1]
    rw [hstep, extractDescGo_true_block mid rest d2 hd2 hmid]
  · show extractDescGo false (pre ++ mid) = ""
    apply extractDescGo_false_of_noDelim
    intro l hl
    rcases List.mem_append.mp hl with h | h
    · exact hpre l h
    · exact hmid l h

/-- Witness for C9 on a concrete frontmatter file. -/
theorem C9_witness :
    extractDescription ["# title", "---", "name: prd",
      "description:  Create a PRD ", "---", "body"] = "Create a PRD" := by
  have h := C9_frontmatter_scanner ["# title"]
    ["name: prd", "description:  Create a PRD "] ["body"] "---" "---"
    (by decide) (by decide) (by decide) (by decide)
  have h1 : extractDescription ["# title", "---", "name: prd",
      "description:  Create a PRD ", "---", "body"] =
      specDescription ["name: prd", "description:  Create a PRD "] := h.1
  rw [h1]
  decide

end Prodkit
